import Mathlib

/-!
Verification of the system-maintenance-automation metrics core:
a shallow embedding of `scripts/monitor_system.py` (sample collection,
threshold evaluation, alert storage, retention pruning) and of
`scripts/generate_reports.py` (cleanup-effectiveness analysis, trend
analysis, monthly effectiveness rollup), over exact rational arithmetic.

Conventions of the embedding:
* Python floats are modelled as `ℚ`; `round(x, n)` is modelled as
  `pyRound x n`, round-half-to-even at `n` decimal digits (Python's
  rounding rule on exact decimal values).
* `datetime` instants are rationals counting seconds; `timedelta.days`
  is the floor of the difference divided by 86400.
* Fallible calls into the OS (psutil, `df`) are modelled as
  `Except String raw`: the `error` case stands for a raised exception
  (or a failed/ill-formed `df` run), which the Python code catches.
* SQLite tables are lists of rows; `DELETE FROM t WHERE timestamp < c`
  keeps exactly the rows whose timestamp is not below `c`.
-/

namespace SystemMaintenance

/-- Round-half-to-even to the nearest integer, the rule Python's `round`
applies to an exact decimal value. -/
def roundHalfEven (q : ℚ) : ℤ :=
  let f := ⌊q⌋
  let frac := q - f
  if frac < 1 / 2 then f
  else if frac > 1 / 2 then f + 1
  else if f % 2 = 0 then f else f + 1

/-- Python's `round(q, n)` on exact decimals: round-half-to-even at `n`
decimal digits. -/
def pyRound (q : ℚ) (n : ℕ) : ℚ :=
  (roundHalfEven (q * 10 ^ n) : ℚ) / 10 ^ n

/-! ## monitor_system.py — sample collection -/

/-- What `psutil.disk_usage(path)` returns (byte counts). -/
structure RawDiskUsage where
  total : ℤ
  used : ℤ
  free : ℤ
deriving DecidableEq

/-- The dictionary built by `SystemMonitor.get_disk_usage`. -/
structure DiskUsageDict where
  path : String
  total_gb : ℚ
  used_gb : ℚ
  free_gb : ℚ
  usage_percent : ℚ
deriving DecidableEq

/-- `SystemMonitor.get_disk_usage` (monitor_system.py:153-166). The
`raw` argument is the outcome of the `psutil.disk_usage(path)` call:
`error` stands for a raised exception, which the method's catch-all
handler turns into `None`. When `total = 0`, the expression
`(usage.used / usage.total) * 100` raises `ZeroDivisionError`, which the
same handler also turns into `None` — there is no zero guard here. -/
def get_disk_usage (path : String) (raw : Except String RawDiskUsage) :
    Option DiskUsageDict :=
  match raw with
  | Except.error _ => none
  | Except.ok u =>
    if u.total = 0 then none
    else some {
      path := path
      total_gb := pyRound ((u.total : ℚ) / 1024 ^ 3) 2
      used_gb := pyRound ((u.used : ℚ) / 1024 ^ 3) 2
      free_gb := pyRound ((u.free : ℚ) / 1024 ^ 3) 2
      usage_percent := pyRound ((u.used : ℚ) / (u.total : ℚ) * 100) 2 }

/-- The inode counts parsed out of a successful `df -i path` run. -/
structure RawInodeUsage where
  total : ℤ
  used : ℤ
  free : ℤ
deriving DecidableEq

/-- The dictionary built by `SystemMonitor.get_inode_usage`. -/
structure InodeUsageDict where
  path : String
  total_inodes : ℤ
  used_inodes : ℤ
  free_inodes : ℤ
  usage_percent : ℚ
deriving DecidableEq

/-- `SystemMonitor.get_inode_usage` (monitor_system.py:168-191). The
`raw` argument is the outcome of running and parsing `df -i path`:
`error` stands for a nonzero exit status, output of the wrong shape, or
a raised exception — all of which make the method return `None`. Unlike
the disk path, the percentage here is guarded:
`... if total_inodes > 0 else 0`. -/
def get_inode_usage (path : String) (raw : Except String RawInodeUsage) :
    Option InodeUsageDict :=
  match raw with
  | Except.error _ => none
  | Except.ok u =>
    some {
      path := path
      total_inodes := u.total
      used_inodes := u.used
      free_inodes := u.free
      usage_percent :=
        if u.total > 0 then pyRound ((u.used : ℚ) / (u.total : ℚ) * 100) 2
        else 0 }

/-! ## monitor_system.py — threshold evaluation -/

/-- An alert draft as built by `check_thresholds_and_alert` before it is
stored (no timestamp, no resolved flag yet). -/
structure Alert where
  alert_type : String
  severity : String
  message : String
deriving DecidableEq

/-- One iteration of the disk loop of `check_thresholds_and_alert`
(monitor_system.py:301-308): `if data and data['usage_percent'] >
threshold`, severity `critical` when `usage_percent > 95`. -/
def evalDiskThreshold (threshold : ℚ) (data : Option DiskUsageDict) :
    Option Alert :=
  match data with
  | none => none
  | some d =>
    if d.usage_percent > threshold then
      some {
        alert_type := "disk_usage"
        severity := if d.usage_percent > 95 then "critical" else "warning"
        message := "Disk usage on " ++ d.path ++ " is " ++
          toString d.usage_percent ++ "% (threshold: " ++
          toString threshold ++ "%)" }
    else none

/-- One iteration of the inode loop of `check_thresholds_and_alert`
(monitor_system.py:311-318). -/
def evalInodeThreshold (threshold : ℚ) (data : Option InodeUsageDict) :
    Option Alert :=
  match data with
  | none => none
  | some d =>
    if d.usage_percent > threshold then
      some {
        alert_type := "inode_usage"
        severity := if d.usage_percent > 95 then "critical" else "warning"
        message := "Inode usage on " ++ d.path ++ " is " ++
          toString d.usage_percent ++ "% (threshold: " ++
          toString threshold ++ "%)" }
    else none

/-- The alert drafts accumulated by `check_thresholds_and_alert`
(monitor_system.py:298-318): the disk loop's alerts followed by the
inode loop's alerts. -/
def thresholdAlerts (disk_data : List (Option DiskUsageDict))
    (inode_data : List (Option InodeUsageDict))
    (disk_usage_threshold inode_usage_threshold : ℚ) : List Alert :=
  disk_data.filterMap (evalDiskThreshold disk_usage_threshold) ++
    inode_data.filterMap (evalInodeThreshold inode_usage_threshold)

/-! ## monitor_system.py — the SQLite store -/

/-- A row of one of the four sample tables, reduced to what pruning
reads: its rowid and its write timestamp (seconds). -/
structure Row where
  rowid : ℕ
  timestamp : ℚ
deriving DecidableEq

/-- A row of the `alerts` table: `timestamp DATETIME DEFAULT
CURRENT_TIMESTAMP`, `resolved BOOLEAN DEFAULT FALSE`. -/
structure StoredAlert where
  timestamp : ℚ
  alert_type : String
  severity : String
  message : String
  resolved : Bool
deriving DecidableEq

/-- The five tables of `system_metrics.db` (monitor_system.py:81-151). -/
structure Store where
  disk_usage : List Row
  inode_usage : List Row
  system_health : List Row
  filesystem_health : List Row
  alerts : List StoredAlert
deriving DecidableEq

/-- `DELETE FROM t WHERE timestamp < cutoff` on a table whose rows carry
their timestamp through `ts`: the surviving rows are exactly those whose
timestamp is not strictly below the cutoff. -/
def pruneOlderThan {α : Type} (ts : α → ℚ) (rows : List α) (cutoff : ℚ) :
    List α :=
  rows.filter (fun r => decide (¬ ts r < cutoff))

/-- Seconds per day, the unit of `timedelta(days=1)`. -/
def oneDay : ℚ := 86400

/-- `SystemMonitor.cleanup_old_data` (monitor_system.py:368-384): the
four sample tables are pruned at `now - retention_days` days, the
`alerts` table at a hard-coded `now - 90` days. The two `datetime.now()`
calls of the method are modelled as the same instant `now`. -/
def cleanup_old_data (s : Store) (now retention_days : ℚ) : Store :=
  let retention_date := now - retention_days * oneDay
  let alert_retention_date := now - 90 * oneDay
  { disk_usage := pruneOlderThan (fun r => r.timestamp) s.disk_usage retention_date
    inode_usage := pruneOlderThan (fun r => r.timestamp) s.inode_usage retention_date
    system_health := pruneOlderThan (fun r => r.timestamp) s.system_health retention_date
    filesystem_health := pruneOlderThan (fun r => r.timestamp) s.filesystem_health retention_date
    alerts := pruneOlderThan (fun a => a.timestamp) s.alerts alert_retention_date }

/-- The row an `INSERT INTO alerts (alert_type, severity, message)`
creates: the schema defaults fill in the write timestamp and
`resolved = FALSE`. -/
def toStoredAlert (now : ℚ) (a : Alert) : StoredAlert :=
  { timestamp := now
    alert_type := a.alert_type
    severity := a.severity
    message := a.message
    resolved := false }

/-- `SystemMonitor.store_alerts` (monitor_system.py:326-335): one
`INSERT INTO alerts (alert_type, severity, message)` per draft. -/
def store_alerts (s : Store) (now : ℚ) (alerts : List Alert) : Store :=
  { s with alerts := s.alerts ++ alerts.map (toStoredAlert now) }

/-- `SystemMonitor.check_thresholds_and_alert` (monitor_system.py:
296-324) as a transformer of the store: it builds the alert drafts and,
`if alerts:`, persists them itself via `store_alerts`. Email delivery
(an external fire-and-forget sink that never touches the store) is not
modelled. -/
def check_thresholds_and_alert (s : Store) (now : ℚ)
    (disk_data : List (Option DiskUsageDict))
    (inode_data : List (Option InodeUsageDict))
    (disk_usage_threshold inode_usage_threshold : ℚ) : Store :=
  let alerts := thresholdAlerts disk_data inode_data
    disk_usage_threshold inode_usage_threshold
  if alerts.isEmpty then s else store_alerts s now alerts

/-! ## monitor_system.py — the collect phase of a cycle -/

/-- The external world the collect phase of `run_monitoring_cycle`
talks to: `os.path.exists`, `psutil.disk_usage` and the `df -i` run,
each per path. -/
structure CollectEnv where
  pathExists : String → Bool
  psutilDisk : String → Except String RawDiskUsage
  dfInode : String → Except String RawInodeUsage

/-- The disk-collection loop of `run_monitoring_cycle`
(monitor_system.py:392-397): each existing path is sampled, and only
non-`None` results enter the batch. -/
def collect_disk_data (env : CollectEnv) (paths : List String) :
    List DiskUsageDict :=
  paths.filterMap (fun p =>
    if env.pathExists p then get_disk_usage p (env.psutilDisk p) else none)

/-- The inode-collection loop of `run_monitoring_cycle`
(monitor_system.py:400-405). -/
def collect_inode_data (env : CollectEnv) (paths : List String) :
    List InodeUsageDict :=
  paths.filterMap (fun p =>
    if env.pathExists p then get_inode_usage p (env.dfInode p) else none)

/-! ## generate_reports.py — queried rows -/

/-- A row of the `disk_usage` query used by the report generator
(`get_disk_usage_data`), reduced to the columns the analyses read. -/
structure DiskRow where
  timestamp : ℚ
  path : String
  usage_percent : ℚ
deriving DecidableEq

/-- A row of the `system_health` query used by the report generator
(`get_system_health_data`). -/
structure HealthRow where
  timestamp : ℚ
  cpu_percent : ℚ
  memory_percent : ℚ
  load_avg_1 : ℚ
  load_avg_5 : ℚ
  load_avg_15 : ℚ
deriving DecidableEq

/-- Successive first differences of a series: pandas `Series.diff()`
with its leading `NaN` discarded (which is what both `.mean()` and the
`< -1` count see of it). -/
def succDiffs : List ℚ → List ℚ
  | a :: b :: rest => (b - a) :: succDiffs (b :: rest)
  | _ => []

/-- Stable insertion into a timestamp-sorted list, the building block of
`sort_values('timestamp')`. -/
def insertByTs (r : DiskRow) : List DiskRow → List DiskRow
  | [] => [r]
  | a :: l => if a.timestamp ≤ r.timestamp then a :: insertByTs r l
              else r :: a :: l

/-- `sort_values('timestamp')` on the path-filtered rows (a stable sort
by timestamp). -/
def sortByTimestamp : List DiskRow → List DiskRow
  | [] => []
  | a :: l => insertByTs a (sortByTimestamp l)

/-- pandas `Series.unique()`: the distinct values in order of first
occurrence. -/
def firstUniques {α : Type} [DecidableEq α] : List α → List α
  | [] => []
  | a :: l => a :: (firstUniques l).filter (fun x => decide (¬ x = a))

/-! ## generate_reports.py — cleanup effectiveness -/

/-- The per-path entry built by `analyze_cleanup_effectiveness`. -/
structure PathAnalysis where
  initial_usage : ℚ
  final_usage : ℚ
  trend : ℚ
  avg_daily_change : ℚ
  cleanup_events : ℕ
  effectiveness : String
deriving DecidableEq

/-- The per-path body of `analyze_cleanup_effectiveness`
(generate_reports.py:162-187) on one path's timestamp-sorted rows:
`none` when the path has fewer than 2 samples (the `continue`);
otherwise trend = last minus first usage, `days_span` the whole days
between first and last timestamp, `avg_daily_change = trend /
max(days_span, 1)`, `cleanup_events` the number of successive
differences below -1, and the effectiveness label from the unrounded
trend. The stored numbers are rounded as the source rounds them. -/
def analyzePathSeq (rows : List DiskRow) : Option PathAnalysis :=
  match rows.head?, rows.getLast? with
  | some firstRow, some lastRow =>
    if rows.length < 2 then none
    else
      let initial_usage := firstRow.usage_percent
      let final_usage := lastRow.usage_percent
      let trend := final_usage - initial_usage
      let days_span : ℤ := ⌊(lastRow.timestamp - firstRow.timestamp) / oneDay⌋
      let avg_daily_change := trend / ((max days_span 1 : ℤ) : ℚ)
      let cleanup_events :=
        (succDiffs (rows.map (fun r => r.usage_percent))).countP
          (fun d => decide (d < -1))
      some {
        initial_usage := pyRound initial_usage 2
        final_usage := pyRound final_usage 2
        trend := pyRound trend 2
        avg_daily_change := pyRound avg_daily_change 3
        cleanup_events := cleanup_events
        effectiveness :=
          if trend < 0 then "good"
          else if trend > 5 then "poor"
          else "stable" }
  | _, _ => none

/-- `ReportGenerator.analyze_cleanup_effectiveness`
(generate_reports.py:148-189): `none` models the
`{"status": "no_data", ...}` dictionary returned for an empty query;
otherwise one entry per distinct path that has at least two samples. -/
def analyze_cleanup_effectiveness (disk_data : List DiskRow) :
    Option (List (String × PathAnalysis)) :=
  if disk_data = [] then none
  else some ((firstUniques (disk_data.map (fun r => r.path))).filterMap
    (fun p =>
      (analyzePathSeq (sortByTimestamp
        (disk_data.filter (fun r => r.path == p)))).map (fun a => (p, a))))

/-! ## generate_reports.py — trend analysis -/

/-- pandas `Series.diff().mean()`: `none` models the `NaN` the mean
takes on a series with no differences (fewer than 2 samples). -/
def diffMean (l : List ℚ) : Option ℚ :=
  let d := succDiffs l
  if d.length = 0 then none else some (d.sum / (d.length : ℚ))

/-- The trend label of `generate_trend_analysis`: `increasing` above
0.1, `decreasing` below -0.1, otherwise `stable`. A `NaN` mean (no
differences) compares false on both sides, hence `stable`. -/
def classifyTrend (dbar : Option ℚ) : String :=
  match dbar with
  | none => "stable"
  | some d =>
    if d > 0.1 then "increasing"
    else if d < -0.1 then "decreasing"
    else "stable"

/-- pandas `Series.max()` of a nonempty series (0 as a don't-care value
on the empty list, which the callers guard). -/
def listMax : List ℚ → ℚ
  | [] => 0
  | [a] => a
  | a :: b :: l => max a (listMax (b :: l))

/-- pandas `Series.min()` of a nonempty series. -/
def listMin : List ℚ → ℚ
  | [] => 0
  | [a] => a
  | a :: b :: l => min a (listMin (b :: l))

/-- pandas `Series.tail(7).mean()`: the mean of the last
`min 7 (length)` values. -/
def tail7mean (l : List ℚ) : ℚ :=
  let t := l.drop (l.length - 7)
  t.sum / (t.length : ℚ)

/-- One of the three health entries of `generate_trend_analysis`
(generate_reports.py:202-226), built from a metric's series. -/
structure MetricTrend where
  current_avg : ℚ
  trend : String
  max_value : ℚ
  min_value : ℚ
deriving DecidableEq

/-- The entry `generate_trend_analysis` builds for one health metric:
`current_avg` the rounded 7-tail mean, the diff-mean classification, and
the rounded whole-window max and min. -/
def metricTrend (series : List ℚ) : MetricTrend :=
  { current_avg := pyRound (tail7mean series) 2
    trend := classifyTrend (diffMean series)
    max_value := pyRound (listMax series) 2
    min_value := pyRound (listMin series) 2 }

/-- A per-path entry of the `disk_usage` trend map
(generate_reports.py:235-240). -/
structure DiskPathTrend where
  current_usage : ℚ
  trend : String
  max_usage : ℚ
  min_usage : ℚ
deriving DecidableEq

/-- The `trends['disk_usage']` map (generate_reports.py:230-240): one
entry per distinct path whose sorted subsequence has more than one
sample. -/
def diskUsageTrends (disk_data : List DiskRow) :
    List (String × DiskPathTrend) :=
  (firstUniques (disk_data.map (fun r => r.path))).filterMap (fun p =>
    let path_data := sortByTimestamp (disk_data.filter (fun r => r.path == p))
    if path_data.length > 1 then
      let usage := path_data.map (fun r => r.usage_percent)
      some (p, {
        current_usage := pyRound (usage.getLast?.getD 0) 2
        trend := classifyTrend (diffMean usage)
        max_usage := pyRound (listMax usage) 2
        min_usage := pyRound (listMin usage) 2 })
    else none)

/-- The dictionary returned by `generate_trend_analysis`: each key is
present only when its data query returned rows, so every field is an
`Option`. -/
structure Trends where
  cpu : Option MetricTrend
  memory : Option MetricTrend
  load_average : Option MetricTrend
  disk_usage : Option (List (String × DiskPathTrend))
deriving DecidableEq

/-- `ReportGenerator.generate_trend_analysis`
(generate_reports.py:191-242): the health entries exist only when the
health query is nonempty, the disk map only when the disk query is
nonempty. An empty query leaves its keys absent — there is no
`no_data` marker in this function's output. -/
def generate_trend_analysis (health_data : List HealthRow)
    (disk_data : List DiskRow) : Trends :=
  { cpu :=
      if health_data = [] then none
      else some (metricTrend (health_data.map (fun r => r.cpu_percent)))
    memory :=
      if health_data = [] then none
      else some (metricTrend (health_data.map (fun r => r.memory_percent)))
    load_average :=
      if health_data = [] then none
      else some (metricTrend (health_data.map (fun r => r.load_avg_1)))
    disk_usage :=
      if disk_data = [] then none
      else some (diskUsageTrends disk_data) }

/-! ## generate_reports.py — monthly rollup -/

/-- The overall-effectiveness rollup of `generate_monthly_report`
(generate_reports.py:520-523): count the per-path labels equal to
`good`; `Excellent` when all are, `Good` when more than half are, else
`Needs Improvement`. -/
def overall_rating (cleanup_analysis : List (String × PathAnalysis)) :
    String :=
  let effectiveness_scores := cleanup_analysis.map (fun pa => pa.2.effectiveness)
  let good_count := effectiveness_scores.count "good"
  let total_paths := effectiveness_scores.length
  if good_count = total_paths then "Excellent"
  else if (good_count : ℚ) > (total_paths : ℚ) / 2 then "Good"
  else "Needs Improvement"

/-! ## Helper lemmas -/

theorem length_insertByTs (r : DiskRow) (l : List DiskRow) :
    (insertByTs r l).length = l.length + 1 := by
  induction l with
  | nil => simp [insertByTs]
  | cons a t ih =>
    by_cases h : a.timestamp ≤ r.timestamp <;> simp [insertByTs, h, ih]

theorem length_sortByTimestamp (l : List DiskRow) :
    (sortByTimestamp l).length = l.length := by
  induction l with
  | nil => rfl
  | cons a t ih => simp [sortByTimestamp, length_insertByTs, ih]

theorem length_succDiffs : ∀ l : List ℚ, (succDiffs l).length = l.length - 1
  | [] => rfl
  | [_] => rfl
  | a :: b :: t => by
    simp only [succDiffs, List.length_cons, length_succDiffs (b :: t)]
    omega

theorem le_listMax (x : ℚ) (l : List ℚ) (hx : x ∈ l) : x ≤ listMax l := by
  induction l with
  | nil => simp at hx
  | cons a t ih =>
    cases t with
    | nil =>
      rw [List.mem_singleton] at hx
      simp [listMax, hx]
    | cons b u =>
      rcases List.mem_cons.mp hx with rfl | h2
      · simp only [listMax]; exact le_max_left _ _
      · simp only [listMax]; exact le_trans (ih h2) (le_max_right _ _)

theorem listMax_mem (l : List ℚ) (hl : l ≠ []) : listMax l ∈ l := by
  induction l with
  | nil => exact absurd rfl hl
  | cons a t ih =>
    cases t with
    | nil => simp [listMax]
    | cons b u =>
      simp only [listMax]
      rcases max_cases a (listMax (b :: u)) with ⟨h, _⟩ | ⟨h, _⟩
      · rw [h]; exact List.mem_cons_self _ _
      · rw [h]; exact List.mem_cons_of_mem _ (ih (by simp))

theorem listMin_le (x : ℚ) (l : List ℚ) (hx : x ∈ l) : listMin l ≤ x := by
  induction l with
  | nil => simp at hx
  | cons a t ih =>
    cases t with
    | nil =>
      rw [List.mem_singleton] at hx
      simp [listMin, hx]
    | cons b u =>
      rcases List.mem_cons.mp hx with rfl | h2
      · simp only [listMin]; exact min_le_left _ _
      · simp only [listMin]; exact le_trans (min_le_right _ _) (ih h2)

theorem listMin_mem (l : List ℚ) (hl : l ≠ []) : listMin l ∈ l := by
  induction l with
  | nil => exact absurd rfl hl
  | cons a t ih =>
    cases t with
    | nil => simp [listMin]
    | cons b u =>
      simp only [listMin]
      rcases min_cases a (listMin (b :: u)) with ⟨h, _⟩ | ⟨h, _⟩
      · rw [h]; exact List.mem_cons_self _ _
      · rw [h]; exact List.mem_cons_of_mem _ (ih (by simp))

/-! ## The claims -/

/-- C1: for every disk-usage or inode-usage sample evaluated against its
configured threshold, exactly one alert is emitted iff the sample's
`usage_percent` is strictly greater than the threshold; the alert's
severity is `critical` when `usage_percent > 95` and `warning`
otherwise; no alert when `usage_percent` is at most the threshold. With
threshold 85: usage 80 yields no alert, usage 90 one warning alert,
usage 96 one critical alert. -/
theorem claim_C1_threshold_alert_rule (d : DiskUsageDict)
    (i : InodeUsageDict) (dthr ithr : ℚ) :
    ((thresholdAlerts [some d] [] dthr ithr).length
        = if d.usage_percent > dthr then 1 else 0)
  ∧ ((thresholdAlerts [some d] [] dthr ithr).map
        (fun a => (a.alert_type, a.severity))
        = if d.usage_percent > dthr then
            [("disk_usage", if d.usage_percent > 95 then "critical" else "warning")]
          else [])
  ∧ ((thresholdAlerts [] [some i] dthr ithr).length
        = if i.usage_percent > ithr then 1 else 0)
  ∧ ((thresholdAlerts [] [some i] dthr ithr).map
        (fun a => (a.alert_type, a.severity))
        = if i.usage_percent > ithr then
            [("inode_usage", if i.usage_percent > 95 then "critical" else "warning")]
          else [])
  ∧ thresholdAlerts [some ⟨"/", 100, 80, 20, 80⟩] [] 85 85 = []
  ∧ ((thresholdAlerts [some ⟨"/", 100, 90, 10, 90⟩] [] 85 85).map
        (fun a => (a.alert_type, a.severity)) = [("disk_usage", "warning")])
  ∧ ((thresholdAlerts [some ⟨"/", 100, 96, 4, 96⟩] [] 85 85).map
        (fun a => (a.alert_type, a.severity)) = [("disk_usage", "critical")]) := by
  refine ⟨?_, ?_, ?_, ?_, ?_, ?_, ?_⟩
  · by_cases h : d.usage_percent > dthr <;>
      simp [thresholdAlerts, evalDiskThreshold, h, List.filterMap_cons]
  · by_cases h : d.usage_percent > dthr <;>
      simp [thresholdAlerts, evalDiskThreshold, h, List.filterMap_cons]
  · by_cases h : i.usage_percent > ithr <;>
      simp [thresholdAlerts, evalInodeThreshold, h, List.filterMap_cons]
  · by_cases h : i.usage_percent > ithr <;>
      simp [thresholdAlerts, evalInodeThreshold, h, List.filterMap_cons]
  · norm_num [thresholdAlerts, evalDiskThreshold, List.filterMap_cons]
  · norm_num [thresholdAlerts, evalDiskThreshold, List.filterMap_cons]
  · norm_num [thresholdAlerts, evalDiskThreshold, List.filterMap_cons]

/-- C4: pruning at cutoff `C` deletes exactly the rows with
`timestamp < C` and retains every row with `timestamp ≥ C`; a row whose
timestamp equals `C` exactly is retained. -/
theorem claim_C4_prune_boundary {α : Type} (ts : α → ℚ) (rows : List α)
    (cutoff : ℚ) (r : α) :
    (r ∈ pruneOlderThan ts rows cutoff ↔ r ∈ rows ∧ cutoff ≤ ts r)
  ∧ (ts r < cutoff → r ∉ pruneOlderThan ts rows cutoff)
  ∧ (ts r = cutoff → (r ∈ pruneOlderThan ts rows cutoff ↔ r ∈ rows)) := by
  have h1 : r ∈ pruneOlderThan ts rows cutoff ↔ r ∈ rows ∧ cutoff ≤ ts r := by
    simp [pruneOlderThan, List.mem_filter, not_lt]
  refine ⟨h1, ?_, ?_⟩
  · intro hlt hmem
    exact absurd (h1.mp hmem).2 (not_le.mpr hlt)
  · intro heq
    rw [h1, heq]
    simp

/-- C5: the prune pass applies the configured retention cutoff to each
of the four sample tables, while alerts are always pruned with a fixed
90-day cutoff that does not depend on the configured retention value. -/
theorem claim_C5_retention_horizons (s : Store)
    (now retention_days r1 r2 : ℚ) :
    ((cleanup_old_data s now retention_days).disk_usage
        = pruneOlderThan (fun r => r.timestamp) s.disk_usage
            (now - retention_days * oneDay))
  ∧ ((cleanup_old_data s now retention_days).inode_usage
        = pruneOlderThan (fun r => r.timestamp) s.inode_usage
            (now - retention_days * oneDay))
  ∧ ((cleanup_old_data s now retention_days).system_health
        = pruneOlderThan (fun r => r.timestamp) s.system_health
            (now - retention_days * oneDay))
  ∧ ((cleanup_old_data s now retention_days).filesystem_health
        = pruneOlderThan (fun r => r.timestamp) s.filesystem_health
            (now - retention_days * oneDay))
  ∧ ((cleanup_old_data s now retention_days).alerts
        = pruneOlderThan (fun a => a.timestamp) s.alerts (now - 90 * oneDay))
  ∧ (cleanup_old_data s now r1).alerts = (cleanup_old_data s now r2).alerts :=
  ⟨rfl, rfl, rfl, rfl, rfl, rfl⟩

/-- C6 counterexample: a disk-usage sample computation with `total = 0`
produces no sample at all — the division raises, the catch-all handler
returns `None` — rather than a sample with `usage_percent = 0`. -/
theorem claim_C6_counterexample :
    ¬ ∃ d : DiskUsageDict,
      get_disk_usage "/" (Except.ok ⟨0, 0, 0⟩) = some d
        ∧ d.usage_percent = 0 := by
  simp [get_disk_usage]

/-- C6 amended: the inode-usage computation guards `total = 0` and
yields a sample with `usage_percent = 0` and no division fault; the
disk-usage computation has no guard — `total = 0` raises a division
error that the catch-all handler swallows, so no sample is produced;
neither path flags an `invalid` state. For positive totals the inode
percentage is the guarded quotient. -/
theorem claim_C6_zero_guard (p e : String) (total used free : ℤ) :
    get_inode_usage p (Except.ok ⟨0, used, free⟩)
        = some ⟨p, 0, used, free, 0⟩
  ∧ get_disk_usage p (Except.ok ⟨0, used, free⟩) = none
  ∧ get_disk_usage p (Except.error e) = none
  ∧ get_inode_usage p (Except.error e) = none
  ∧ (total > 0 →
      (get_inode_usage p (Except.ok ⟨total, used, free⟩)).map
          (fun d => d.usage_percent)
        = some (pyRound ((used : ℚ) / (total : ℚ) * 100) 2)) := by
  refine ⟨by norm_num [get_inode_usage], by norm_num [get_disk_usage],
    rfl, rfl, ?_⟩
  intro h
  simp [get_inode_usage, h]

/-- C2 counterexample: for the sorted two-sample sequence 50 → 40 over a
3-day span the analysis stores `avg_daily_change = -3.333` (the quotient
rounded to 3 decimal places), which differs from the claimed exact value
`trend / days_span = -10/3`. -/
theorem claim_C2_counterexample :
    (analyzePathSeq [⟨0, "/var", 50⟩, ⟨259200, "/var", 40⟩]
        = some ⟨50, 40, -10, -3333 / 1000, 1, "good"⟩)
  ∧ ((-3333 / 1000 : ℚ) ≠ (40 - 50) / 3) := by
  constructor
  · norm_num [analyzePathSeq, succDiffs, pyRound, roundHalfEven, oneDay,
      List.countP, List.countP.go, max_def]
  · norm_num

/-- C2 amended: for every per-path disk-usage sequence with at least 2
samples, the analysis outputs `initial_usage`/`final_usage` rounded to 2
decimals, `trend` = (final − initial) rounded to 2 decimals,
`avg_daily_change` = (final − initial) / max(days_span, 1) rounded to 3
decimals — where `days_span` is the whole days between first and last
timestamp — `cleanup_events` = the count of consecutive differences
strictly below −1, and an effectiveness label computed from the
unrounded trend (`good` if negative, `poor` if above 5, else `stable`);
a path with fewer than 2 samples produces no entry. The sequence
[50, 40, 42, 35] over a 3-day span yields trend = −15,
avg_daily_change = −5, cleanup_events = 2, effectiveness `good`. -/
theorem claim_C2_cleanup_effectiveness (a b : DiskRow)
    (mid : List DiskRow) :
    (analyzePathSeq (a :: (mid ++ [b]))
      = some {
          initial_usage := pyRound a.usage_percent 2
          final_usage := pyRound b.usage_percent 2
          trend := pyRound (b.usage_percent - a.usage_percent) 2
          avg_daily_change := pyRound ((b.usage_percent - a.usage_percent)
            / ((max ⌊(b.timestamp - a.timestamp) / oneDay⌋ 1 : ℤ) : ℚ)) 3
          cleanup_events :=
            (succDiffs ((a :: (mid ++ [b])).map (fun r => r.usage_percent))).countP
              (fun x => decide (x < -1))
          effectiveness :=
            if b.usage_percent - a.usage_percent < 0 then "good"
            else if b.usage_percent - a.usage_percent > 5 then "poor"
            else "stable" })
  ∧ (∀ r : DiskRow, analyzePathSeq [r] = none)
  ∧ analyzePathSeq [] = none
  ∧ (analyzePathSeq [⟨0, "/var", 50⟩, ⟨86400, "/var", 40⟩,
        ⟨172800, "/var", 42⟩, ⟨259200, "/var", 35⟩]
      = some ⟨50, 35, -15, -5, 2, "good"⟩) := by
  refine ⟨?_, ?_, rfl, ?_⟩
  · have hlast : (a :: (mid ++ [b])).getLast? = some b := by
      rw [← List.cons_append]
      exact List.getLast?_concat _
    have hlen : ¬ (a :: (mid ++ [b])).length < 2 := by
      simp only [List.length_cons, List.length_append, List.length_singleton]
      omega
    simp only [analyzePathSeq, List.head?_cons, hlast, hlen, if_false]
  · intro r
    simp [analyzePathSeq]
  · norm_num [analyzePathSeq, succDiffs, pyRound, roundHalfEven, oneDay,
      List.countP, List.countP.go, max_def]

/-- C3 counterexample: on empty inputs the trend analyzer returns a
dictionary with no entries at all — there is no `no_data` output state —
and on a 7-sample cpu series `[1, 1, 1, 1, 1, 1, 1.01]` the stored
`current_avg` is the rounded value 1, not the exact mean 701/700 of the
most recent 7 samples. -/
theorem claim_C3_counterexample :
    generate_trend_analysis [] [] = ⟨none, none, none, none⟩
  ∧ ((generate_trend_analysis
        [⟨0, 1, 0, 0, 0, 0⟩, ⟨1, 1, 0, 0, 0, 0⟩, ⟨2, 1, 0, 0, 0, 0⟩,
         ⟨3, 1, 0, 0, 0, 0⟩, ⟨4, 1, 0, 0, 0, 0⟩, ⟨5, 1, 0, 0, 0, 0⟩,
         ⟨6, 101 / 100, 0, 0, 0, 0⟩] []).cpu.map (fun t => t.current_avg)
      = some 1)
  ∧ ((1 : ℚ) ≠ (1 + 1 + 1 + 1 + 1 + 1 + 101 / 100) / 7) := by
  refine ⟨by norm_num [generate_trend_analysis], ?_, by norm_num⟩
  have hw : (generate_trend_analysis
      [⟨0, 1, 0, 0, 0, 0⟩, ⟨1, 1, 0, 0, 0, 0⟩, ⟨2, 1, 0, 0, 0, 0⟩,
       ⟨3, 1, 0, 0, 0, 0⟩, ⟨4, 1, 0, 0, 0, 0⟩, ⟨5, 1, 0, 0, 0, 0⟩,
       ⟨6, 101 / 100, 0, 0, 0, 0⟩] []).cpu
      = some (metricTrend [1, 1, 1, 1, 1, 1, 101 / 100]) := by
    norm_num [generate_trend_analysis]
    exact fun h => by simp at h
  rw [hw, Option.map_some']
  norm_num [metricTrend, tail7mean, pyRound, roundHalfEven]

/-- C3 amended: an empty series leaves the metric's entry absent from
the trends output (rather than yielding a `no_data` marker); a non-empty
series yields `current_avg` = the mean of the most recent 7 samples (or
of all samples if fewer), rounded to 2 decimals, `max_value`/`min_value`
the (rounded) maximum and minimum over the whole window, and a trend
classified from the mean `d` of successive first differences as
`increasing` if `d > 0.1`, `decreasing` if `d < -0.1`, `stable`
otherwise — a single-sample series, which has no differences, is
classified `stable`. -/
theorem claim_C3_trend_analysis :
    (∀ disk, (generate_trend_analysis [] disk).cpu = none
      ∧ (generate_trend_analysis [] disk).memory = none
      ∧ (generate_trend_analysis [] disk).load_average = none)
  ∧ (∀ health disk, health ≠ [] →
      (generate_trend_analysis health disk).cpu
          = some (metricTrend (health.map (fun r => r.cpu_percent)))
      ∧ (generate_trend_analysis health disk).memory
          = some (metricTrend (health.map (fun r => r.memory_percent)))
      ∧ (generate_trend_analysis health disk).load_average
          = some (metricTrend (health.map (fun r => r.load_avg_1))))
  ∧ (∀ series : List ℚ,
      (metricTrend series).current_avg
        = pyRound ((series.drop (series.length - 7)).sum
            / ((min 7 series.length : ℕ) : ℚ)) 2)
  ∧ (∀ series : List ℚ, series ≠ [] →
      ((metricTrend series).max_value = pyRound (listMax series) 2
        ∧ listMax series ∈ series ∧ ∀ x ∈ series, x ≤ listMax series)
      ∧ ((metricTrend series).min_value = pyRound (listMin series) 2
        ∧ listMin series ∈ series ∧ ∀ x ∈ series, listMin series ≤ x))
  ∧ (∀ series : List ℚ, 2 ≤ series.length →
      (metricTrend series).trend
        = (if (1 : ℚ) / 10
              < (succDiffs series).sum / ((series.length - 1 : ℕ) : ℚ)
           then "increasing"
           else if (succDiffs series).sum / ((series.length - 1 : ℕ) : ℚ)
              < -(1 / 10)
           then "decreasing"
           else "stable"))
  ∧ (∀ x : ℚ, (metricTrend [x]).trend = "stable") := by
  refine ⟨?_, ?_, ?_, ?_, ?_, ?_⟩
  · intro disk
    refine ⟨?_, ?_, ?_⟩ <;> simp [generate_trend_analysis]
  · intro health disk h
    refine ⟨?_, ?_, ?_⟩ <;> simp [generate_trend_analysis, h]
  · intro series
    have hd : (series.drop (series.length - 7)).length = min 7 series.length := by
      rw [List.length_drop]
      omega
    simp [metricTrend, tail7mean, hd]
  · intro series h
    exact ⟨⟨rfl, listMax_mem series h, fun x hx => le_listMax x series hx⟩,
      ⟨rfl, listMin_mem series h, fun x hx => listMin_le x series hx⟩⟩
  · intro series hlen
    have hne : (succDiffs series).length = series.length - 1 :=
      length_succDiffs series
    have h0 : ¬ (series.length - 1 = 0) := by omega
    have h01 : (0.1 : ℚ) = 1 / 10 := by norm_num
    simp only [metricTrend, classifyTrend, diffMean, hne, h0, if_false, h01,
      gt_iff_lt]
  · intro x
    rfl

/-- C7 counterexample: evaluating thresholds does NOT leave the store
unchanged — starting from an empty store, one breaching disk sample at
threshold 85 leaves an alert row persisted in the store's alerts table,
because `check_thresholds_and_alert` calls `store_alerts` itself. -/
theorem claim_C7_counterexample :
    (check_thresholds_and_alert ⟨[], [], [], [], []⟩ 0
        [some ⟨"/", 100, 90, 10, 90⟩] [] 85 85).alerts
      ≠ ([] : List StoredAlert) := by
  simp only [check_thresholds_and_alert, thresholdAlerts, evalDiskThreshold,
    store_alerts, List.filterMap_cons, List.filterMap_nil]
  norm_num

/-- C7 amended: the alert drafts are a pure function of the fresh disk
samples, inode samples and configured thresholds, but
`check_thresholds_and_alert` persists them itself: it returns the store
with the drafts appended to the alerts table as unresolved rows, leaving
the four sample tables untouched, and leaves the store unchanged exactly
when no draft is produced; persistence is not left to the caller. -/
theorem claim_C7_evaluation_persists (s : Store) (now : ℚ)
    (disk_data : List (Option DiskUsageDict))
    (inode_data : List (Option InodeUsageDict)) (dthr ithr : ℚ) :
    (check_thresholds_and_alert s now disk_data inode_data dthr ithr
      = if (thresholdAlerts disk_data inode_data dthr ithr).isEmpty then s
        else { s with
                alerts := s.alerts ++
                  (thresholdAlerts disk_data inode_data dthr ithr).map
                    (toStoredAlert now) })
  ∧ ((check_thresholds_and_alert s now disk_data inode_data dthr ithr).disk_usage
        = s.disk_usage
    ∧ (check_thresholds_and_alert s now disk_data inode_data dthr ithr).inode_usage
        = s.inode_usage
    ∧ (check_thresholds_and_alert s now disk_data inode_data dthr ithr).system_health
        = s.system_health
    ∧ (check_thresholds_and_alert s now disk_data inode_data dthr ithr).filesystem_health
        = s.filesystem_health)
  ∧ (check_thresholds_and_alert s now disk_data inode_data dthr ithr = s
      ↔ thresholdAlerts disk_data inode_data dthr ithr = [])
  ∧ (∀ a ∈ (check_thresholds_and_alert s now disk_data inode_data dthr ithr).alerts,
      a ∈ s.alerts ∨ a.resolved = false) := by
  refine ⟨rfl, ?_, ?_, ?_⟩
  · by_cases h : (thresholdAlerts disk_data inode_data dthr ithr).isEmpty <;>
      exact ⟨by simp [check_thresholds_and_alert, store_alerts, h],
        by simp [check_thresholds_and_alert, store_alerts, h],
        by simp [check_thresholds_and_alert, store_alerts, h],
        by simp [check_thresholds_and_alert, store_alerts, h]⟩
  · constructor
    · intro heq
      by_contra hne
      have hne2 : (thresholdAlerts disk_data inode_data dthr ithr).isEmpty = false := by
        simpa [List.isEmpty_iff] using hne
      have halerts : (check_thresholds_and_alert s now disk_data inode_data
          dthr ithr).alerts
          = s.alerts ++ (thresholdAlerts disk_data inode_data dthr ithr).map
              (toStoredAlert now) := by
        simp [check_thresholds_and_alert, store_alerts, hne2]
      rw [heq] at halerts
      have hmapnil : (thresholdAlerts disk_data inode_data dthr ithr).map
          (toStoredAlert now) = [] :=
        List.self_eq_append_right.mp halerts
      exact hne (List.map_eq_nil_iff.mp hmapnil)
    · intro hnil
      simp [check_thresholds_and_alert, hnil]
  · intro a ha
    by_cases h : (thresholdAlerts disk_data inode_data dthr ithr).isEmpty
    · left
      simpa [check_thresholds_and_alert, h] using ha
    · have h2 : (thresholdAlerts disk_data inode_data dthr ithr).isEmpty = false := by
        simpa using h
      have halerts : (check_thresholds_and_alert s now disk_data inode_data
          dthr ithr).alerts
          = s.alerts ++ (thresholdAlerts disk_data inode_data dthr ithr).map
              (toStoredAlert now) := by
        simp [check_thresholds_and_alert, store_alerts, h2]
      rw [halerts] at ha
      rcases List.mem_append.mp ha with hs | hm
      · exact Or.inl hs
      · rcases List.mem_map.mp hm with ⟨draft, _, rfl⟩
        exact Or.inr rfl

/-- C8: a collection failure on one path is caught inside the per-path
sampler (it returns `None`) and that path is excluded from the batch,
while every other existing path whose sampler succeeds still has its
sample included — one failing source never aborts collection of the
others. -/
theorem claim_C8_partial_collection_tolerance (env : CollectEnv)
    (paths : List String) (p : String) (d : DiskUsageDict)
    (i : InodeUsageDict) (hp : p ∈ paths) :
    (env.pathExists p = true → get_disk_usage p (env.psutilDisk p) = some d →
        d ∈ collect_disk_data env paths)
  ∧ (env.pathExists p = true → get_inode_usage p (env.dfInode p) = some i →
        i ∈ collect_inode_data env paths)
  ∧ (∀ q rest,
      (if env.pathExists q then get_disk_usage q (env.psutilDisk q) else none)
          = none →
        collect_disk_data env (q :: rest) = collect_disk_data env rest)
  ∧ (∀ q rest,
      (if env.pathExists q then get_inode_usage q (env.dfInode q) else none)
          = none →
        collect_inode_data env (q :: rest) = collect_inode_data env rest) := by
  refine ⟨?_, ?_, ?_, ?_⟩
  · intro he hd
    exact List.mem_filterMap.mpr ⟨p, hp, by simp [he, hd]⟩
  · intro he hi
    exact List.mem_filterMap.mpr ⟨p, hp, by simp [he, hi]⟩
  · intro q rest h
    simp only [collect_disk_data, List.filterMap_cons, h]
  · intro q rest h
    simp only [collect_inode_data, List.filterMap_cons, h]

/-- A concrete collection environment in which sampling the path `/`
fails (both psutil and `df` raise) while sampling `/home` succeeds. -/
def exampleEnv : CollectEnv :=
  { pathExists := fun _ => true
    psutilDisk := fun p =>
      if p = "/" then Except.error "unreachable"
      else Except.ok ⟨2 ^ 31, 2 ^ 30, 2 ^ 30⟩
    dfInode := fun p =>
      if p = "/" then Except.error "df failed"
      else Except.ok ⟨1000, 250, 750⟩ }

/-- C8 witness: with `/` failing and `/home` succeeding, the `/home`
samples are still in the collected batches. -/
theorem claim_C8_witness :
    (⟨"/home", 2, 1, 1, 50⟩ : DiskUsageDict)
        ∈ collect_disk_data exampleEnv ["/", "/home"]
  ∧ (⟨"/home", 1000, 250, 750, 25⟩ : InodeUsageDict)
        ∈ collect_inode_data exampleEnv ["/", "/home"] := by
  have h := claim_C8_partial_collection_tolerance exampleEnv ["/", "/home"]
    "/home" ⟨"/home", 2, 1, 1, 50⟩ ⟨"/home", 1000, 250, 750, 25⟩ (by simp)
  have hdraw : exampleEnv.psutilDisk "/home"
      = Except.ok ⟨2 ^ 31, 2 ^ 30, 2 ^ 30⟩ := by
    simp [exampleEnv]
  have hiraw : exampleEnv.dfInode "/home" = Except.ok ⟨1000, 250, 750⟩ := by
    simp [exampleEnv]
  refine ⟨h.1 rfl ?_, h.2.1 rfl ?_⟩
  · rw [hdraw]
    norm_num [get_disk_usage, pyRound, roundHalfEven]
  · rw [hiraw]
    norm_num [get_inode_usage, pyRound, roundHalfEven]

/-- C9: the cross-path rollup reports `Excellent` iff every analyzed
path is labeled `good`, `Good` iff not all are good but more than half
are, and `Needs Improvement` otherwise, with the good count and total
taken from the per-path effectiveness map. -/
theorem claim_C9_overall_rollup (analysis : List (String × PathAnalysis)) :
    (overall_rating analysis = "Excellent"
      ↔ ∀ pa ∈ analysis, pa.2.effectiveness = "good")
  ∧ (overall_rating analysis = "Good"
      ↔ ((¬ ∀ pa ∈ analysis, pa.2.effectiveness = "good")
          ∧ analysis.length
              < 2 * (analysis.map (fun pa => pa.2.effectiveness)).count "good"))
  ∧ (overall_rating analysis = "Needs Improvement"
      ↔ ((¬ ∀ pa ∈ analysis, pa.2.effectiveness = "good")
          ∧ 2 * (analysis.map (fun pa => pa.2.effectiveness)).count "good"
              ≤ analysis.length)) := by
  have hlen : (analysis.map (fun pa => pa.2.effectiveness)).length
      = analysis.length := List.length_map _ _
  have key1 : ((analysis.map (fun pa => pa.2.effectiveness)).count "good"
        = analysis.length)
      ↔ ∀ pa ∈ analysis, pa.2.effectiveness = "good" := by
    rw [← hlen, List.count_eq_length]
    constructor
    · intro h pa hpa
      exact (h _ (List.mem_map_of_mem _ hpa)).symm
    · intro h b hb
      rcases List.mem_map.mp hb with ⟨pa, hpa, rfl⟩
      exact (h pa hpa).symm
  have key2 : (((analysis.map (fun pa => pa.2.effectiveness)).count "good" : ℚ)
        > (analysis.length : ℚ) / 2)
      ↔ analysis.length
          < 2 * (analysis.map (fun pa => pa.2.effectiveness)).count "good" := by
    rw [gt_iff_lt, div_lt_iff₀ (by norm_num : (0 : ℚ) < 2)]
    constructor
    · intro h
      have h2 : analysis.length
          < (analysis.map (fun pa => pa.2.effectiveness)).count "good" * 2 := by
        exact_mod_cast h
      omega
    · intro h
      have h2 : analysis.length
          < (analysis.map (fun pa => pa.2.effectiveness)).count "good" * 2 := by
        omega
      exact_mod_cast h2
  by_cases h1 : (analysis.map (fun pa => pa.2.effectiveness)).count "good"
      = analysis.length
  · have hall : ∀ pa ∈ analysis, pa.2.effectiveness = "good" := key1.mp h1
    have hr : overall_rating analysis = "Excellent" := by
      simp [overall_rating, hlen, h1]
    rw [hr]
    refine ⟨⟨fun _ => hall, fun _ => rfl⟩, ?_, ?_⟩
    · constructor
      · intro h
        exact absurd h (by decide)
      · intro h
        exact absurd hall h.1
    · constructor
      · intro h
        exact absurd h (by decide)
      · intro h
        exact absurd hall h.1
  · by_cases h2 : ((analysis.map (fun pa => pa.2.effectiveness)).count "good" : ℚ)
        > (analysis.length : ℚ) / 2
    · have hr : overall_rating analysis = "Good" := by
        simp only [overall_rating, hlen]
        rw [if_neg h1, if_pos h2]
      rw [hr]
      refine ⟨?_, ?_, ?_⟩
      · constructor
        · intro h
          exact absurd h (by decide)
        · intro h
          exact absurd (key1.mpr h) h1
      · exact ⟨fun _ => ⟨fun hall => h1 (key1.mpr hall), key2.mp h2⟩,
          fun _ => rfl⟩
      · constructor
        · intro h
          exact absurd h (by decide)
        · intro h
          exact absurd (key2.mp h2) (not_lt.mpr h.2)
    · have hr : overall_rating analysis = "Needs Improvement" := by
        simp only [overall_rating, hlen]
        rw [if_neg h1, if_neg h2]
      rw [hr]
      refine ⟨?_, ?_, ?_⟩
      · constructor
        · intro h
          exact absurd h (by decide)
        · intro h
          exact absurd (key1.mpr h) h1
      · constructor
        · intro h
          exact absurd h (by decide)
        · intro h
          exact absurd (key2.mpr h.2) h2
      · exact ⟨fun _ => ⟨fun hall => h1 (key1.mpr hall),
          not_lt.mp (fun hc => h2 (key2.mpr hc))⟩, fun _ => rfl⟩

/-- C10: a path with exactly one sample in the window produces no entry
in the disk-usage trend map; every path that appears in the map has at
least 2 samples in the window; and the map is what the trend analysis
returns under its `disk_usage` key whenever disk data exists. -/
theorem claim_C10_trend_map_needs_two_samples (disk_data : List DiskRow)
    (p : String) :
    ((disk_data.filter (fun r => r.path == p)).length = 1 →
        ∀ t, (p, t) ∉ diskUsageTrends disk_data)
  ∧ (∀ t, (p, t) ∈ diskUsageTrends disk_data →
        2 ≤ (disk_data.filter (fun r => r.path == p)).length)
  ∧ (∀ health, disk_data ≠ [] →
        (generate_trend_analysis health disk_data).disk_usage
          = some (diskUsageTrends disk_data)) := by
  have key : ∀ t, (p, t) ∈ diskUsageTrends disk_data →
      2 ≤ (disk_data.filter (fun r => r.path == p)).length := by
    intro t ht
    rcases List.mem_filterMap.mp ht with ⟨q, _, hf⟩
    by_cases hlen :
        (sortByTimestamp (disk_data.filter (fun r => r.path == q))).length > 1
    · rw [if_pos hlen] at hf
      have hq : q = p := congrArg Prod.fst (Option.some.inj hf)
      rw [hq, length_sortByTimestamp] at hlen
      omega
    · rw [if_neg hlen] at hf
      exact absurd hf (by simp)
  refine ⟨?_, key, ?_⟩
  · intro hone t ht
    have := key t ht
    omega
  · intro health h
    simp [generate_trend_analysis, h]

end SystemMaintenance
